import Mathlib

/-!
Verification of the authentication and profile-management logic of the
HR-Si-u-Nh-n-Verify web application.

The source consists of two React components backed by Firebase:

* `src/components/Auth.tsx` — the authentication flow controller
  (`handleSubmit` for sign-in / sign-up, `handleResetPassword` for
  forgot-password), and
* the profile view (`fetchProfile`, `handleUpdate`,
  `handleDeleteAccount`).

We embed the document store (Firestore `users` collection) as an
association list from user ids to documents, where a document is an
association list of string-valued fields (field *absence* is
observable, as in Firestore).  Each handler is embedded as a pure
function from its form inputs, the outcomes of the fallible backend
calls it makes (passed as an environment), and the current store, to
the resulting UI state, store, session, and the list of backend calls
issued, in order.
-/

/-- A Firestore document: an association list of string-valued fields.
Field lookup returns the first binding; absence of a field is `none`. -/
abbrev Doc := List (String × String)

/-- Read a field of a document (`none` when the field is absent). -/
def Doc.get : Doc → String → Option String
  | [], _ => none
  | (k, v) :: rest, key => if k = key then some v else Doc.get rest key

/-- Set a field of a document, replacing an existing binding or
appending a new one. -/
def Doc.set : Doc → String → String → Doc
  | [], key, val => [(key, val)]
  | (k, v) :: rest, key, val =>
      if k = key then (key, val) :: rest else (k, v) :: Doc.set rest key val

/-- The document store: the `users` collection, keyed by account id. -/
abbrev Store := List (String × Doc)

/-- Read the document stored under a key (`getDoc`). -/
def Store.get : Store → String → Option Doc
  | [], _ => none
  | (k, d) :: rest, key => if k = key then some d else Store.get rest key

/-- Write a whole document under a key (`setDoc`). -/
def Store.set : Store → String → Doc → Store
  | [], key, doc => [(key, doc)]
  | (k, d) :: rest, key, doc =>
      if k = key then (key, doc) :: rest else (k, d) :: Store.set rest key doc

/-- Remove the document stored under a key (`deleteDoc`). -/
def Store.erase : Store → String → Store
  | [], _ => []
  | (k, d) :: rest, key =>
      if k = key then Store.erase rest key else (k, d) :: Store.erase rest key

/-- JavaScript `x || dflt` on a nullable string: `null` and `""` are
falsy. -/
def jsOr (x : Option String) (dflt : String) : String :=
  match x with
  | none => dflt
  | some s => if s = "" then dflt else s

/-- JavaScript `s || dflt` on a plain string. -/
def jsOrS (s : String) (dflt : String) : String :=
  if s = "" then dflt else s

/-- One backend call issued by a handler, in the order issued.
Identity-service calls and document-store calls are distinguished. -/
inductive Call where
  | signInCall (email password : String)
  | createUserCall (email password : String)
  | updateProfileCall (displayName : String)
  | sendEmailVerificationCall
  | signOutCall
  | sendPasswordResetEmailCall (email : String)
  | deleteUserCall
  | getDocCall (uid : String)
  | setDocCall (uid : String) (fields : Doc)
  | updateDocCall (uid : String) (fields : Doc)
  | deleteDocCall (uid : String)
  deriving DecidableEq, Repr

/-- Whether a call writes to the document store. -/
def Call.isDocWrite : Call → Bool
  | Call.setDocCall _ _ => true
  | Call.updateDocCall _ _ => true
  | Call.deleteDocCall _ => true
  | _ => false

/-- The authenticated user record returned by the identity service
(`userCredential.user`).  `displayName` is nullable in Firebase. -/
structure FirebaseUser where
  uid : String
  email : String
  displayName : Option String
  emailVerified : Bool
  deriving DecidableEq, Repr

/-- The UI state of the `Auth` component that the handlers touch. -/
structure AuthState where
  isLogin : Bool
  isForgotPassword : Bool
  resetSuccess : Bool
  error : String
  loading : Bool
  verificationPending : Bool
  deriving DecidableEq, Repr

/-- The form fields of the `Auth` component read by `handleSubmit`. -/
structure AuthForm where
  isLogin : Bool
  email : String
  password : String
  confirmPassword : String
  name : String
  photoPreview : Option String
  photoFileName : String
  deriving DecidableEq, Repr

/-- Outcomes of the fallible identity-service calls `handleSubmit`
makes.  An `Except.error` carries the thrown error's `code` string.
`resendVerificationOk` is the outcome of the verification-email resend
on the unverified sign-in path, whose failure the code swallows
(`console.error` only). -/
structure AuthEnv where
  signInResult : Except String FirebaseUser
  createUserResult : Except String FirebaseUser
  updateProfileResult : Except String Unit
  sendVerificationResult : Except String Unit
  resendVerificationOk : Bool
  nowIso : String
  deriving Repr

/-- Result of running `handleSubmit` or a profile-view handler:
final UI state, final store, the backend calls issued in order, and
the active session (account id) afterwards. -/
structure SubmitOutcome where
  state : AuthState
  store : Store
  calls : List Call
  session : Option String
  deriving DecidableEq, Repr

/-- Error-code-to-message mapping of the sign-in catch block
(Auth.tsx lines 105–114). -/
def signInErrorMessage (code : String) : String :=
  if code = "auth/invalid-credential" ∨ code = "auth/user-not-found" ∨
      code = "auth/wrong-password" then
    "Password or Email Incorrect"
  else if code = "auth/too-many-requests" then
    "Too many attempts. Please try again later."
  else
    "Failed to sign in. Please check your connection."

/-- Error-code-to-message mapping of the sign-up catch block
(Auth.tsx lines 152–161). -/
def signUpErrorMessage (code : String) : String :=
  if code = "auth/email-already-in-use" then
    "User already exists. Sign in?"
  else if code = "auth/weak-password" then
    "Password should be at least 6 characters."
  else
    "Failed to create account."

/-- Error-code-to-message mapping of the forgot-password catch block
(Auth.tsx lines 53–61). -/
def resetErrorMessage (code : String) : String :=
  if code = "auth/user-not-found" then
    "No user found with this email."
  else if code = "auth/invalid-email" then
    "Invalid email address format."
  else
    "Failed to send reset link. Try again later."

/-- The profile document written by the sign-in path when none exists
(Auth.tsx lines 84–89).  Note: `name` is `user.displayName || 'User'`
and no `photoBase64` field is written. -/
def signInDefaultDoc (user : FirebaseUser) (nowIso : String) : Doc :=
  [("name", jsOr user.displayName "User"),
   ("email", user.email),
   ("photoFileName", ""),
   ("createdAt", nowIso)]

/-- The profile document written by the sign-up path
(Auth.tsx lines 135–143). -/
def signUpDoc (form : AuthForm) (nowIso : String) : Doc :=
  [("name", form.name),
   ("email", form.email),
   ("photoFileName", jsOrS form.photoFileName ""),
   ("photoBase64", jsOr form.photoPreview ""),
   ("createdAt", nowIso)]

/-- `handleSubmit` of Auth.tsx (lines 67–168), covering both the
sign-in (`isLogin`) and sign-up branches.  The handler runs on the
auth screen, where no session is active; `signInWithEmailAndPassword`
and `createUserWithEmailAndPassword` establish a session on success,
and `signOut` / failure leave none.  Document-store reads and writes
made by this handler are modelled as succeeding (the code gives their
failures no dedicated handling beyond the shared catch blocks). -/
def handleSubmit (st : AuthState) (form : AuthForm) (env : AuthEnv)
    (store : Store) : SubmitOutcome :=
  -- setError(''); setLoading(true); every exit path runs the
  -- `finally { setLoading(false) }`.
  let st0 := { st with error := "", loading := true }
  if form.isLogin then
    -- Sign In
    match env.signInResult with
    | Except.error code =>
        { state := { st0 with error := signInErrorMessage code, loading := false },
          store := store,
          calls := [Call.signInCall form.email form.password],
          session := none }
    | Except.ok user =>
        let calls0 := [Call.signInCall form.email form.password,
                       Call.getDocCall user.uid]
        -- Check if user exists in Firestore, if not add them
        let created :=
          match Store.get store user.uid with
          | some _ => (store, calls0)
          | none =>
              let d := signInDefaultDoc user env.nowIso
              (Store.set store user.uid d, calls0 ++ [Call.setDocCall user.uid d])
        if user.emailVerified then
          -- User is verified; session stays active, screen unchanged
          { state := { st0 with loading := false },
            store := created.1, calls := created.2, session := some user.uid }
        else
          -- Resend verification (failure swallowed: console.error only),
          -- sign out immediately, show the verification screen.
          { state := { st0 with verificationPending := true, loading := false },
            store := created.1,
            calls := created.2 ++ [Call.sendEmailVerificationCall, Call.signOutCall],
            session := none }
  else
    -- Sign Up
    if form.password ≠ form.confirmPassword then
      { state := { st0 with error := "Passwords do not match", loading := false },
        store := store, calls := [], session := none }
    else
      match env.createUserResult with
      | Except.error code =>
          { state := { st0 with error := signUpErrorMessage code, loading := false },
            store := store,
            calls := [Call.createUserCall form.email form.password],
            session := none }
      | Except.ok user =>
          let calls1 := [Call.createUserCall form.email form.password]
          -- Update Auth Profile, only when a name was entered
          let profileStep : Except String Unit :=
            if form.name = "" then Except.ok () else env.updateProfileResult
          let calls2 :=
            if form.name = "" then calls1
            else calls1 ++ [Call.updateProfileCall form.name]
          match profileStep with
          | Except.error code =>
              { state := { st0 with error := signUpErrorMessage code, loading := false },
                store := store, calls := calls2, session := some user.uid }
          | Except.ok _ =>
              -- Write to Firestore
              let d := signUpDoc form env.nowIso
              let store2 := Store.set store user.uid d
              let calls3 := calls2 ++ [Call.setDocCall user.uid d]
              -- Send verification email (NOT failure-tolerant here)
              match env.sendVerificationResult with
              | Except.error code =>
                  { state := { st0 with error := signUpErrorMessage code, loading := false },
                    store := store2,
                    calls := calls3 ++ [Call.sendEmailVerificationCall],
                    session := some user.uid }
              | Except.ok _ =>
                  -- Sign out and show the verification screen
                  { state := { st0 with verificationPending := true, loading := false },
                    store := store2,
                    calls := calls3 ++ [Call.sendEmailVerificationCall, Call.signOutCall],
                    session := none }

/-- `handleResetPassword` of Auth.tsx (lines 39–65).  Returns the
resulting UI state and the identity-service calls issued.
`sendResult` is the outcome of `sendPasswordResetEmail`. -/
def handleResetPassword (st : AuthState) (email : String)
    (sendResult : Except String Unit) : AuthState × List Call :=
  let st0 := { st with error := "", loading := true }
  if email = "" then
    ({ st0 with error := "Please enter your email address.", loading := false }, [])
  else
    match sendResult with
    | Except.ok _ =>
        ({ st0 with resetSuccess := true, loading := false },
         [Call.sendPasswordResetEmailCall email])
    | Except.error code =>
        ({ st0 with error := resetErrorMessage code, loading := false },
         [Call.sendPasswordResetEmailCall email])

/-- The UI language of the profile view (`lang: 'vi' | 'en'`). -/
inductive Lang where
  | vi
  | en
  deriving DecidableEq, Repr

/-- The UI state of the profile view (`ProfileAgent`) that its
handlers touch. -/
structure ProfileState where
  loading : Bool
  updating : Bool
  profileData : Option Doc
  editName : String
  msg : String
  deriving DecidableEq, Repr

/-- Result of running a profile-view handler: final UI state, final
store, calls issued in order, the active session afterwards, and the
delay (ms) of a `setTimeout` armed to clear `msg`, when one was. -/
structure ProfileOutcome where
  state : ProfileState
  store : Store
  calls : List Call
  session : Option String
  msgTimerMs : Option Nat
  deriving DecidableEq, Repr

/-- Localized success message of `handleUpdate`. -/
def updateSuccessMsg : Lang → String
  | Lang.vi => "Cập nhật thành công!"
  | Lang.en => "Profile updated successfully!"

/-- Localized failure message of `handleUpdate`. -/
def updateFailMsg : Lang → String
  | Lang.vi => "Lỗi cập nhật."
  | Lang.en => "Update failed."

/-- Localized failure message of `handleDeleteAccount`. -/
def deleteErrorMsg : Lang → String
  | Lang.vi => "Lỗi: Cần đăng nhập lại để xóa."
  | Lang.en => "Error: Requires recent login."

/-- `fetchProfile` of the profile view (lines 22–37).  `sessionUid` is
`auth.currentUser?.uid`; `getOk` is whether `getDoc` succeeds (its
failure is only logged).  Returns the resulting UI state and the calls
issued; the function performs no store mutation, which is reflected in
the calls it emits. -/
def fetchProfile (sessionUid : Option String) (getOk : Bool)
    (st : ProfileState) (store : Store) : ProfileState × List Call :=
  match sessionUid with
  | none => (st, [])
  | some uid =>
      if getOk then
        match Store.get store uid with
        | some d =>
            ({ st with profileData := some d,
                       editName := jsOr (Doc.get d "name") "",
                       loading := false },
             [Call.getDocCall uid])
        | none =>
            ({ st with loading := false }, [Call.getDocCall uid])
      else
        -- the catch block only logs; finally sets loading to false
        ({ st with loading := false }, [Call.getDocCall uid])

/-- `handleUpdate` of the profile view (lines 39–56).  `netOk` is
whether the `updateDoc` round trip succeeds (it also fails when the
document is absent, as Firestore `updateDoc` does); `getOk` is the
outcome of the `getDoc` inside the subsequent `fetchProfile`.  On
success a `setTimeout(…, 3000)` is armed to clear `msg`; the failure
branch arms none. -/
def handleUpdate (lang : Lang) (sessionUid : Option String)
    (netOk getOk : Bool) (st : ProfileState) (store : Store) : ProfileOutcome :=
  match sessionUid with
  | none =>
      { state := st, store := store, calls := [], session := none,
        msgTimerMs := none }
  | some uid =>
      let st1 := { st with updating := true }
      let fields : Doc := [("name", st.editName)]
      let outcome :=
        if netOk then
          match Store.get store uid with
          | some d => some (Store.set store uid (Doc.set d "name" st.editName))
          | none => none
        else none
      match outcome with
      | some store2 =>
          let st2 := { st1 with msg := updateSuccessMsg lang }
          let fetched := fetchProfile (some uid) getOk st2 store2
          { state := { fetched.1 with updating := false },
            store := store2,
            calls := [Call.updateDocCall uid fields] ++ fetched.2,
            session := some uid,
            msgTimerMs := some 3000 }
      | none =>
          { state := { st1 with msg := updateFailMsg lang, updating := false },
            store := store,
            calls := [Call.updateDocCall uid fields],
            session := some uid,
            msgTimerMs := none }

/-- `handleDeleteAccount` of the profile view (lines 58–79).
`confirmed` is the result of the `window.confirm` prompt;
`deleteDocOk` and `deleteUserOk` are the outcomes of `deleteDoc` and
`deleteUser`.  A successful `deleteUser` ends the session; on any
failure the shared catch sets the error message and the session stays
active.  On full success `setUpdating(false)` is never executed
(App.tsx handles the redirect). -/
def handleDeleteAccount (lang : Lang) (sessionUid : Option String)
    (confirmed : Bool) (deleteDocOk deleteUserOk : Bool)
    (st : ProfileState) (store : Store) : ProfileOutcome :=
  match sessionUid with
  | none =>
      { state := st, store := store, calls := [], session := none,
        msgTimerMs := none }
  | some uid =>
      if confirmed then
        let st1 := { st with updating := true }
        if deleteDocOk then
          -- Delete Firestore Data
          let store2 := Store.erase store uid
          if deleteUserOk then
            -- Delete Auth User; App.tsx handles the auth state change
            { state := st1, store := store2,
              calls := [Call.deleteDocCall uid, Call.deleteUserCall],
              session := none, msgTimerMs := none }
          else
            { state := { st1 with msg := deleteErrorMsg lang, updating := false },
              store := store2,
              calls := [Call.deleteDocCall uid, Call.deleteUserCall],
              session := some uid, msgTimerMs := none }
        else
          { state := { st1 with msg := deleteErrorMsg lang, updating := false },
            store := store,
            calls := [Call.deleteDocCall uid],
            session := some uid, msgTimerMs := none }
      else
        { state := st, store := store, calls := [], session := some uid,
          msgTimerMs := none }

/-! ### Association-list lemmas for the store and documents -/

theorem Store.get_set_self (s : Store) (k : String) (d : Doc) :
    Store.get (Store.set s k d) k = some d := by
  induction s with
  | nil => simp [Store.set, Store.get]
  | cons p rest ih =>
      obtain ⟨k', d'⟩ := p
      by_cases h : k' = k
      · simp [Store.set, Store.get, h]
      · simp [Store.set, Store.get, h, ih]

theorem Store.get_erase_self (s : Store) (k : String) :
    Store.get (Store.erase s k) k = none := by
  induction s with
  | nil => simp [Store.erase, Store.get]
  | cons p rest ih =>
      obtain ⟨k', d'⟩ := p
      by_cases h : k' = k
      · simp [Store.erase, h, ih]
      · simp [Store.erase, Store.get, h, ih]

theorem Doc.get_set (d : Doc) (key val k : String) :
    Doc.get (Doc.set d key val) k =
      if key = k then some val else Doc.get d k := by
  induction d with
  | nil =>
      by_cases h : key = k <;> simp [Doc.set, Doc.get, h]
  | cons p rest ih =>
      obtain ⟨k', v'⟩ := p
      by_cases h1 : k' = key
      · subst h1
        by_cases h2 : k' = k <;> simp [Doc.set, Doc.get, h2]
      · by_cases h2 : k' = k
        · subst h2
          have : ¬ key = k' := fun hkk => h1 hkk.symm
          simp [Doc.set, Doc.get, h1, this]
        · simp [Doc.set, Doc.get, h1, h2, ih]

/-! ### Claim C1 -/

/-- C1 counterexample: in the concrete sign-in below, the account
authenticates successfully with display name "Ann" and has no profile
document, yet the document the controller creates has name "Ann" (not
the claimed default "User") and contains no `photoBase64` field at all
(so its photo fields are not both present and empty). -/
theorem signIn_profile_creation_claim_false :
    Store.get (handleSubmit
        { isLogin := true, isForgotPassword := false, resetSuccess := false,
          error := "", loading := false, verificationPending := false }
        { isLogin := true, email := "a@x.com", password := "pw",
          confirmPassword := "", name := "", photoPreview := none,
          photoFileName := "" }
        { signInResult := Except.ok
            { uid := "u1", email := "a@x.com", displayName := some "Ann",
              emailVerified := true },
          createUserResult := Except.error "unused",
          updateProfileResult := Except.ok (),
          sendVerificationResult := Except.ok (),
          resendVerificationOk := true, nowIso := "t0" }
        []).store "u1" =
      some [("name", "Ann"), ("email", "a@x.com"), ("photoFileName", ""),
            ("createdAt", "t0")] ∧
    Doc.get [("name", "Ann"), ("email", "a@x.com"), ("photoFileName", ""),
             ("createdAt", "t0")] "name" ≠ some "User" ∧
    Doc.get [("name", "Ann"), ("email", "a@x.com"), ("photoFileName", ""),
             ("createdAt", "t0")] "photoBase64" = none := by
  decide

/-- C1 (amended): for every sign-in that authenticates successfully on
an account whose profile document is absent from the store, the
controller creates a profile document keyed by the account id with
name equal to the account's display name (falling back to "User" when
the display name is null or empty), the account's email, an empty
`photoFileName`, and a creation timestamp — no `photoBase64` field is
written — before proceeding with the verification check. -/
theorem signIn_creates_missing_profile
    (st : AuthState) (form : AuthForm) (env : AuthEnv) (store : Store)
    (user : FirebaseUser)
    (hlogin : form.isLogin = true)
    (hok : env.signInResult = Except.ok user)
    (habsent : Store.get store user.uid = none) :
    Store.get (handleSubmit st form env store).store user.uid =
      some (signInDefaultDoc user env.nowIso) ∧
    Doc.get (signInDefaultDoc user env.nowIso) "name" =
      some (jsOr user.displayName "User") ∧
    Doc.get (signInDefaultDoc user env.nowIso) "email" = some user.email ∧
    Doc.get (signInDefaultDoc user env.nowIso) "photoFileName" = some "" ∧
    Doc.get (signInDefaultDoc user env.nowIso) "createdAt" = some env.nowIso ∧
    Doc.get (signInDefaultDoc user env.nowIso) "photoBase64" = none ∧
    (handleSubmit st form env store).calls =
      [Call.signInCall form.email form.password, Call.getDocCall user.uid,
       Call.setDocCall user.uid (signInDefaultDoc user env.nowIso)] ++
      (if user.emailVerified then []
       else [Call.sendEmailVerificationCall, Call.signOutCall]) := by
  cases hv : user.emailVerified <;>
    simp [handleSubmit, hlogin, hok, habsent, hv, Store.get_set_self,
      signInDefaultDoc, Doc.get]

/-- C1 witness: the amended theorem applied to a concrete unverified
sign-in of account "u2" (display name null) with an empty store. -/
theorem signIn_creates_missing_profile_witness :
    Store.get (handleSubmit
        { isLogin := true, isForgotPassword := false, resetSuccess := false,
          error := "", loading := false, verificationPending := false }
        { isLogin := true, email := "b@x.com", password := "pw",
          confirmPassword := "", name := "", photoPreview := none,
          photoFileName := "" }
        { signInResult := Except.ok
            { uid := "u2", email := "b@x.com", displayName := none,
              emailVerified := false },
          createUserResult := Except.error "unused",
          updateProfileResult := Except.ok (),
          sendVerificationResult := Except.ok (),
          resendVerificationOk := false, nowIso := "t1" }
        []).store "u2" =
      some (signInDefaultDoc
        { uid := "u2", email := "b@x.com", displayName := none,
          emailVerified := false } "t1") ∧
    signInDefaultDoc
        { uid := "u2", email := "b@x.com", displayName := none,
          emailVerified := false } "t1" =
      [("name", "User"), ("email", "b@x.com"), ("photoFileName", ""),
       ("createdAt", "t1")] :=
  ⟨(signIn_creates_missing_profile _ _ _ []
      { uid := "u2", email := "b@x.com", displayName := none,
        emailVerified := false } rfl rfl rfl).1, by decide⟩

/-! ### Claim C2 -/

/-- C2: for every confirmed delete-account action whose profile-document
deletion succeeds, the handler issues the profile-document delete first
and the account delete second; when the account-deletion call fails,
the profile document is absent afterwards, the localized error message
is shown, and the session remains active. -/
theorem deleteAccount_order_and_partial_failure
    (lang : Lang) (uid : String) (deleteUserOk : Bool)
    (st : ProfileState) (store : Store) :
    (handleDeleteAccount lang (some uid) true true deleteUserOk st store).calls =
      [Call.deleteDocCall uid, Call.deleteUserCall] ∧
    (deleteUserOk = false →
      Store.get
        (handleDeleteAccount lang (some uid) true true deleteUserOk st store).store
        uid = none ∧
      (handleDeleteAccount lang (some uid) true true deleteUserOk st store).state.msg =
        deleteErrorMsg lang ∧
      (handleDeleteAccount lang (some uid) true true deleteUserOk st store).session =
        some uid) := by
  cases deleteUserOk <;>
    simp [handleDeleteAccount, Store.get_erase_self]

/-- C2 witness: a concrete confirmed deletion of account "u1" whose
account-deletion call fails, with the profile document initially
present. -/
theorem deleteAccount_order_and_partial_failure_witness :
    (handleDeleteAccount Lang.en (some "u1") true true false
        { loading := false, updating := false,
          profileData := some [("name", "Ann")], editName := "Ann", msg := "" }
        [("u1", [("name", "Ann")])]).calls =
      [Call.deleteDocCall "u1", Call.deleteUserCall] ∧
    (Store.get (handleDeleteAccount Lang.en (some "u1") true true false
        { loading := false, updating := false,
          profileData := some [("name", "Ann")], editName := "Ann", msg := "" }
        [("u1", [("name", "Ann")])]).store "u1" = none ∧
      (handleDeleteAccount Lang.en (some "u1") true true false
        { loading := false, updating := false,
          profileData := some [("name", "Ann")], editName := "Ann", msg := "" }
        [("u1", [("name", "Ann")])]).state.msg = deleteErrorMsg Lang.en ∧
      (handleDeleteAccount Lang.en (some "u1") true true false
        { loading := false, updating := false,
          profileData := some [("name", "Ann")], editName := "Ann", msg := "" }
        [("u1", [("name", "Ann")])]).session = some "u1") :=
  ⟨(deleteAccount_order_and_partial_failure Lang.en "u1" false _ _).1,
   (deleteAccount_order_and_partial_failure Lang.en "u1" false _ _).2 rfl⟩

/-! ### Claim C3 -/

/-- C3: for every sign-up with matching passwords where all backend
calls succeed, the handler performs, in order: create account, set the
display name when one was provided, write the profile document with
fields name/email/photoFileName/photoBase64 (empty strings when no
photo was chosen)/createdAt, send the verification email, and sign
out; the final state is `verificationPending` with no active
session. -/
theorem signUp_success_flow
    (st : AuthState) (form : AuthForm) (env : AuthEnv) (store : Store)
    (user : FirebaseUser)
    (hsignup : form.isLogin = false)
    (hmatch : form.password = form.confirmPassword)
    (hcreate : env.createUserResult = Except.ok user)
    (hprofile : env.updateProfileResult = Except.ok ())
    (hverify : env.sendVerificationResult = Except.ok ()) :
    (handleSubmit st form env store).calls =
      [Call.createUserCall form.email form.password] ++
      (if form.name = "" then [] else [Call.updateProfileCall form.name]) ++
      [Call.setDocCall user.uid (signUpDoc form env.nowIso),
       Call.sendEmailVerificationCall, Call.signOutCall] ∧
    Store.get (handleSubmit st form env store).store user.uid =
      some (signUpDoc form env.nowIso) ∧
    signUpDoc form env.nowIso =
      [("name", form.name), ("email", form.email),
       ("photoFileName", jsOrS form.photoFileName ""),
       ("photoBase64", jsOr form.photoPreview ""),
       ("createdAt", env.nowIso)] ∧
    (handleSubmit st form env store).state.verificationPending = true ∧
    (handleSubmit st form env store).session = none := by
  by_cases hn : form.name = "" <;>
    simp [handleSubmit, hsignup, hmatch, hcreate, hprofile, hverify, hn,
      Store.get_set_self, signUpDoc]

/-- C3 witness: the spec's scenario — sign-up with email "a@x.com",
password "secret1", confirmation "secret1", name "Ann", and no photo
chosen — yields the profile document with name "Ann", email "a@x.com",
empty photo fields, the timestamp, and the `verificationPending`
state with no session. -/
theorem signUp_success_flow_witness :
    Store.get (handleSubmit
        { isLogin := false, isForgotPassword := false, resetSuccess := false,
          error := "", loading := false, verificationPending := false }
        { isLogin := false, email := "a@x.com", password := "secret1",
          confirmPassword := "secret1", name := "Ann", photoPreview := none,
          photoFileName := "" }
        { signInResult := Except.error "unused",
          createUserResult := Except.ok
            { uid := "u3", email := "a@x.com", displayName := none,
              emailVerified := false },
          updateProfileResult := Except.ok (),
          sendVerificationResult := Except.ok (),
          resendVerificationOk := true, nowIso := "t2" }
        []).store "u3" =
      some [("name", "Ann"), ("email", "a@x.com"), ("photoFileName", ""),
            ("photoBase64", ""), ("createdAt", "t2")] ∧
    (handleSubmit
        { isLogin := false, isForgotPassword := false, resetSuccess := false,
          error := "", loading := false, verificationPending := false }
        { isLogin := false, email := "a@x.com", password := "secret1",
          confirmPassword := "secret1", name := "Ann", photoPreview := none,
          photoFileName := "" }
        { signInResult := Except.error "unused",
          createUserResult := Except.ok
            { uid := "u3", email := "a@x.com", displayName := none,
              emailVerified := false },
          updateProfileResult := Except.ok (),
          sendVerificationResult := Except.ok (),
          resendVerificationOk := true, nowIso := "t2" }
        []).state.verificationPending = true := by
  have h := signUp_success_flow
    { isLogin := false, isForgotPassword := false, resetSuccess := false,
      error := "", loading := false, verificationPending := false }
    { isLogin := false, email := "a@x.com", password := "secret1",
      confirmPassword := "secret1", name := "Ann", photoPreview := none,
      photoFileName := "" }
    { signInResult := Except.error "unused",
      createUserResult := Except.ok
        { uid := "u3", email := "a@x.com", displayName := none,
          emailVerified := false },
      updateProfileResult := Except.ok (),
      sendVerificationResult := Except.ok (),
      resendVerificationOk := true, nowIso := "t2" }
    []
    { uid := "u3", email := "a@x.com", displayName := none,
      emailVerified := false }
    rfl rfl rfl rfl rfl
  exact ⟨h.2.2.1 ▸ h.2.1, h.2.2.2.1⟩

/-! ### Claim C4 -/

/-- C4: for every sign-in whose credential check succeeds but whose
account email is unverified, the handler issues a verification-email
resend followed by a sign-out, transitions to `verificationPending`,
ends with no active session, and its outcome does not depend on
whether the resend succeeds or fails. -/
theorem signIn_unverified_flow
    (st : AuthState) (form : AuthForm) (env : AuthEnv) (store : Store)
    (user : FirebaseUser)
    (hlogin : form.isLogin = true)
    (hok : env.signInResult = Except.ok user)
    (hunverified : user.emailVerified = false) :
    (handleSubmit st form env store).session = none ∧
    (handleSubmit st form env store).state.verificationPending = true ∧
    (∃ pre, (handleSubmit st form env store).calls =
        pre ++ [Call.sendEmailVerificationCall, Call.signOutCall]) ∧
    (∀ b : Bool,
      handleSubmit st form { env with resendVerificationOk := b } store =
        handleSubmit st form env store) := by
  cases hg : Store.get store user.uid with
  | none =>
      refine ⟨?_, ?_, ⟨[Call.signInCall form.email form.password,
        Call.getDocCall user.uid,
        Call.setDocCall user.uid (signInDefaultDoc user env.nowIso)], ?_⟩, ?_⟩ <;>
        simp [handleSubmit, hlogin, hok, hunverified, hg]
  | some d =>
      refine ⟨?_, ?_, ⟨[Call.signInCall form.email form.password,
        Call.getDocCall user.uid], ?_⟩, ?_⟩ <;>
        simp [handleSubmit, hlogin, hok, hunverified, hg]

/-- C4 witness: a concrete unverified sign-in of account "u4" whose
profile document already exists: the session ends signed out in the
`verificationPending` state, with the resend and sign-out calls issued
last. -/
theorem signIn_unverified_flow_witness :
    (handleSubmit
        { isLogin := true, isForgotPassword := false, resetSuccess := false,
          error := "", loading := false, verificationPending := false }
        { isLogin := true, email := "c@x.com", password := "pw",
          confirmPassword := "", name := "", photoPreview := none,
          photoFileName := "" }
        { signInResult := Except.ok
            { uid := "u4", email := "c@x.com", displayName := some "Cal",
              emailVerified := false },
          createUserResult := Except.error "unused",
          updateProfileResult := Except.ok (),
          sendVerificationResult := Except.ok (),
          resendVerificationOk := false, nowIso := "t3" }
        [("u4", [("name", "Cal")])]).session = none ∧
    (handleSubmit
        { isLogin := true, isForgotPassword := false, resetSuccess := false,
          error := "", loading := false, verificationPending := false }
        { isLogin := true, email := "c@x.com", password := "pw",
          confirmPassword := "", name := "", photoPreview := none,
          photoFileName := "" }
        { signInResult := Except.ok
            { uid := "u4", email := "c@x.com", displayName := some "Cal",
              emailVerified := false },
          createUserResult := Except.error "unused",
          updateProfileResult := Except.ok (),
          sendVerificationResult := Except.ok (),
          resendVerificationOk := false, nowIso := "t3" }
        [("u4", [("name", "Cal")])]).state.verificationPending = true :=
  ⟨(signIn_unverified_flow _ _ _ [("u4", [("name", "Cal")])]
      { uid := "u4", email := "c@x.com", displayName := some "Cal",
        emailVerified := false } rfl rfl rfl).1,
   (signIn_unverified_flow _ _ _ [("u4", [("name", "Cal")])]
      { uid := "u4", email := "c@x.com", displayName := some "Cal",
        emailVerified := false } rfl rfl rfl).2.1⟩

/-! ### Claim C5 -/

/-- C5: for every successful save of the profile name, the write sent
to the document store carries only the `name` field; the stored
document afterwards is the old document with only its `name` field
replaced, so a read returns the new name and every other field
unchanged; and the handler re-fetches the document right after the
write. -/
theorem profile_save_partial_update
    (lang : Lang) (uid : String) (getOk : Bool) (st : ProfileState)
    (store : Store) (d : Doc)
    (hdoc : Store.get store uid = some d) :
    (handleUpdate lang (some uid) true getOk st store).calls =
      [Call.updateDocCall uid [("name", st.editName)], Call.getDocCall uid] ∧
    Store.get (handleUpdate lang (some uid) true getOk st store).store uid =
      some (Doc.set d "name" st.editName) ∧
    Doc.get (Doc.set d "name" st.editName) "name" = some st.editName ∧
    (∀ k, k ≠ "name" →
      Doc.get (Doc.set d "name" st.editName) k = Doc.get d k) ∧
    (getOk = true →
      (handleUpdate lang (some uid) true getOk st store).state.profileData =
        some (Doc.set d "name" st.editName)) := by
  refine ⟨?_, ?_, ?_, ?_, ?_⟩
  · cases getOk <;>
      simp [handleUpdate, hdoc, fetchProfile, Store.get_set_self]
  · cases getOk <;>
      simp [handleUpdate, hdoc, Store.get_set_self]
  · simp [Doc.get_set]
  · intro k hk
    rw [Doc.get_set, if_neg (fun h => hk h.symm)]
  · intro hget
    simp [handleUpdate, hdoc, hget, fetchProfile, Store.get_set_self]

/-- C5 witness: the spec's scenario — saving the name changed from
"Ann" to "Anne" sends only `name`, and the stored document afterwards
has name "Anne" with email, photoFileName, photoBase64 and createdAt
unchanged. -/
theorem profile_save_partial_update_witness :
    (handleUpdate Lang.en (some "u1") true true
        { loading := false, updating := false,
          profileData := some [("name", "Ann"), ("email", "a@x.com"),
            ("photoFileName", ""), ("photoBase64", ""), ("createdAt", "t0")],
          editName := "Anne", msg := "" }
        [("u1", [("name", "Ann"), ("email", "a@x.com"), ("photoFileName", ""),
          ("photoBase64", ""), ("createdAt", "t0")])]).calls =
      [Call.updateDocCall "u1" [("name", "Anne")], Call.getDocCall "u1"] ∧
    Store.get (handleUpdate Lang.en (some "u1") true true
        { loading := false, updating := false,
          profileData := some [("name", "Ann"), ("email", "a@x.com"),
            ("photoFileName", ""), ("photoBase64", ""), ("createdAt", "t0")],
          editName := "Anne", msg := "" }
        [("u1", [("name", "Ann"), ("email", "a@x.com"), ("photoFileName", ""),
          ("photoBase64", ""), ("createdAt", "t0")])]).store "u1" =
      some [("name", "Anne"), ("email", "a@x.com"), ("photoFileName", ""),
            ("photoBase64", ""), ("createdAt", "t0")] :=
  ⟨(profile_save_partial_update Lang.en "u1" true
      { loading := false, updating := false,
        profileData := some [("name", "Ann"), ("email", "a@x.com"),
          ("photoFileName", ""), ("photoBase64", ""), ("createdAt", "t0")],
        editName := "Anne", msg := "" }
      [("u1", [("name", "Ann"), ("email", "a@x.com"), ("photoFileName", ""),
        ("photoBase64", ""), ("createdAt", "t0")])]
      [("name", "Ann"), ("email", "a@x.com"), ("photoFileName", ""),
       ("photoBase64", ""), ("createdAt", "t0")] rfl).1,
   by
    have h := (profile_save_partial_update Lang.en "u1" true
      { loading := false, updating := false,
        profileData := some [("name", "Ann"), ("email", "a@x.com"),
          ("photoFileName", ""), ("photoBase64", ""), ("createdAt", "t0")],
        editName := "Anne", msg := "" }
      [("u1", [("name", "Ann"), ("email", "a@x.com"), ("photoFileName", ""),
        ("photoBase64", ""), ("createdAt", "t0")])]
      [("name", "Ann"), ("email", "a@x.com"), ("photoFileName", ""),
       ("photoBase64", ""), ("createdAt", "t0")] rfl).2.1
    simpa [Doc.set] using h⟩

/-! ### Claim C6 -/

/-- C6 counterexample: in the concrete failing save below (the
`updateDoc` round trip fails), the localized failure message "Update
failed." is shown but no timer is armed to clear it, refuting the
claim that the message auto-clears after 3 seconds whether the write
succeeds or fails. -/
theorem profile_save_autoclear_claim_false :
    (handleUpdate Lang.en (some "u1") false true
        { loading := false, updating := false,
          profileData := some [("name", "Ann")], editName := "Anne", msg := "" }
        [("u1", [("name", "Ann")])]).state.msg = "Update failed." ∧
    (handleUpdate Lang.en (some "u1") false true
        { loading := false, updating := false,
          profileData := some [("name", "Ann")], editName := "Anne", msg := "" }
        [("u1", [("name", "Ann")])]).msgTimerMs = none := by
  decide

/-- C6 (amended): for every save of the profile name, on success the
localized success message is shown and a 3000 ms timer is armed that
auto-clears it; on failure the localized failure message is shown but
no auto-clear timer is armed, so it persists. -/
theorem profile_save_msg_timer
    (lang : Lang) (uid : String) (netOk getOk : Bool) (st : ProfileState)
    (store : Store) (d : Doc)
    (hdoc : Store.get store uid = some d) :
    (netOk = true →
      (handleUpdate lang (some uid) netOk getOk st store).state.msg =
        updateSuccessMsg lang ∧
      (handleUpdate lang (some uid) netOk getOk st store).msgTimerMs =
        some 3000) ∧
    (netOk = false →
      (handleUpdate lang (some uid) netOk getOk st store).state.msg =
        updateFailMsg lang ∧
      (handleUpdate lang (some uid) netOk getOk st store).msgTimerMs = none) := by
  constructor
  · intro hnet
    subst hnet
    cases getOk <;>
      simp [handleUpdate, hdoc, fetchProfile, Store.get_set_self]
  · intro hnet
    subst hnet
    simp [handleUpdate]

/-- C6 witness: the amended theorem at a concrete successful save (the
message auto-clears after 3000 ms) and at a concrete failing save (no
timer). -/
theorem profile_save_msg_timer_witness :
    ((handleUpdate Lang.vi (some "u1") true true
        { loading := false, updating := false,
          profileData := some [("name", "Ann")], editName := "Anne", msg := "" }
        [("u1", [("name", "Ann")])]).state.msg = updateSuccessMsg Lang.vi ∧
      (handleUpdate Lang.vi (some "u1") true true
        { loading := false, updating := false,
          profileData := some [("name", "Ann")], editName := "Anne", msg := "" }
        [("u1", [("name", "Ann")])]).msgTimerMs = some 3000) ∧
    ((handleUpdate Lang.vi (some "u1") false true
        { loading := false, updating := false,
          profileData := some [("name", "Ann")], editName := "Anne", msg := "" }
        [("u1", [("name", "Ann")])]).state.msg = updateFailMsg Lang.vi ∧
      (handleUpdate Lang.vi (some "u1") false true
        { loading := false, updating := false,
          profileData := some [("name", "Ann")], editName := "Anne", msg := "" }
        [("u1", [("name", "Ann")])]).msgTimerMs = none) :=
  ⟨(profile_save_msg_timer Lang.vi "u1" true true
      { loading := false, updating := false,
        profileData := some [("name", "Ann")], editName := "Anne", msg := "" }
      [("u1", [("name", "Ann")])] [("name", "Ann")] rfl).1 rfl,
   (profile_save_msg_timer Lang.vi "u1" false true
      { loading := false, updating := false,
        profileData := some [("name", "Ann")], editName := "Anne", msg := "" }
      [("u1", [("name", "Ann")])] [("name", "Ann")] rfl).2 rfl⟩

/-! ### Claim C7 -/

/-- C7: for every sign-up attempt where the password differs from its
confirmation, no backend call is issued at all, the inline error
"Passwords do not match" is shown, the loading flag returns to false,
and the store is untouched. -/
theorem signUp_password_mismatch
    (st : AuthState) (form : AuthForm) (env : AuthEnv) (store : Store)
    (hsignup : form.isLogin = false)
    (hmismatch : form.password ≠ form.confirmPassword) :
    (handleSubmit st form env store).calls = [] ∧
    (handleSubmit st form env store).state.error = "Passwords do not match" ∧
    (handleSubmit st form env store).state.loading = false ∧
    (handleSubmit st form env store).store = store := by
  simp [handleSubmit, hsignup, hmismatch]

/-- C7 witness: a concrete sign-up with password "secret1" and
confirmation "secret2" issues no call and shows the inline error. -/
theorem signUp_password_mismatch_witness :
    (handleSubmit
        { isLogin := false, isForgotPassword := false, resetSuccess := false,
          error := "", loading := false, verificationPending := false }
        { isLogin := false, email := "a@x.com", password := "secret1",
          confirmPassword := "secret2", name := "Ann", photoPreview := none,
          photoFileName := "" }
        { signInResult := Except.error "unused",
          createUserResult := Except.error "unused",
          updateProfileResult := Except.ok (),
          sendVerificationResult := Except.ok (),
          resendVerificationOk := true, nowIso := "t4" }
        []).calls = [] ∧
    (handleSubmit
        { isLogin := false, isForgotPassword := false, resetSuccess := false,
          error := "", loading := false, verificationPending := false }
        { isLogin := false, email := "a@x.com", password := "secret1",
          confirmPassword := "secret2", name := "Ann", photoPreview := none,
          photoFileName := "" }
        { signInResult := Except.error "unused",
          createUserResult := Except.error "unused",
          updateProfileResult := Except.ok (),
          sendVerificationResult := Except.ok (),
          resendVerificationOk := true, nowIso := "t4" }
        []).state.error = "Passwords do not match" :=
  ⟨(signUp_password_mismatch _ _ _ _ rfl (by decide)).1,
   (signUp_password_mismatch _ _ _ _ rfl (by decide)).2.1⟩

/-! ### Claim C8 -/

/-- C8: for every sign-in attempt that fails, the displayed message is
exactly "Password or Email Incorrect" for the invalid-credential,
unknown-account and wrong-password error codes, the "Too many
attempts. Please try again later." message for the rate-limit code,
and the generic connectivity message for any other code; in every
failure case the loading flag returns to false, no screen-state flag
changes, and the store is untouched. -/
theorem signIn_failure_messages
    (st : AuthState) (form : AuthForm) (env : AuthEnv) (store : Store)
    (code : String)
    (hlogin : form.isLogin = true)
    (herr : env.signInResult = Except.error code) :
    (handleSubmit st form env store).state.error = signInErrorMessage code ∧
    ((code = "auth/invalid-credential" ∨ code = "auth/user-not-found" ∨
        code = "auth/wrong-password") →
      (handleSubmit st form env store).state.error =
        "Password or Email Incorrect") ∧
    (code = "auth/too-many-requests" →
      (handleSubmit st form env store).state.error =
        "Too many attempts. Please try again later.") ∧
    (¬(code = "auth/invalid-credential" ∨ code = "auth/user-not-found" ∨
        code = "auth/wrong-password") →
      code ≠ "auth/too-many-requests" →
      (handleSubmit st form env store).state.error =
        "Failed to sign in. Please check your connection.") ∧
    (handleSubmit st form env store).state.loading = false ∧
    (handleSubmit st form env store).state.isLogin = st.isLogin ∧
    (handleSubmit st form env store).state.isForgotPassword =
      st.isForgotPassword ∧
    (handleSubmit st form env store).state.resetSuccess = st.resetSuccess ∧
    (handleSubmit st form env store).state.verificationPending =
      st.verificationPending ∧
    (handleSubmit st form env store).store = store := by
  have hstate : (handleSubmit st form env store).state =
      { st with error := signInErrorMessage code, loading := false } := by
    simp [handleSubmit, hlogin, herr]
  have hstore : (handleSubmit st form env store).store = store := by
    simp [handleSubmit, hlogin, herr]
  have hmsg : (handleSubmit st form env store).state.error =
      signInErrorMessage code := by
    rw [hstate]
  refine ⟨hmsg, ?_, ?_, ?_, by rw [hstate], by rw [hstate],
    by rw [hstate], by rw [hstate], by rw [hstate], hstore⟩
  · rintro (h | h | h) <;> subst h <;> rw [hmsg] <;> decide
  · intro h
    subst h
    rw [hmsg]
    decide
  · intro h1 h2
    rw [hmsg]
    unfold signInErrorMessage
    rw [if_neg h1, if_neg h2]

/-- C8 witness: the spec's scenario — a sign-in failing with the
wrong-password code displays exactly "Password or Email Incorrect",
the loading flag is false, and the screen flags are unchanged. -/
theorem signIn_failure_messages_witness :
    (handleSubmit
        { isLogin := true, isForgotPassword := false, resetSuccess := false,
          error := "", loading := false, verificationPending := false }
        { isLogin := true, email := "a@x.com", password := "wrong",
          confirmPassword := "", name := "", photoPreview := none,
          photoFileName := "" }
        { signInResult := Except.error "auth/wrong-password",
          createUserResult := Except.error "unused",
          updateProfileResult := Except.ok (),
          sendVerificationResult := Except.ok (),
          resendVerificationOk := true, nowIso := "t5" }
        []).state.error = "Password or Email Incorrect" ∧
    (handleSubmit
        { isLogin := true, isForgotPassword := false, resetSuccess := false,
          error := "", loading := false, verificationPending := false }
        { isLogin := true, email := "a@x.com", password := "wrong",
          confirmPassword := "", name := "", photoPreview := none,
          photoFileName := "" }
        { signInResult := Except.error "auth/wrong-password",
          createUserResult := Except.error "unused",
          updateProfileResult := Except.ok (),
          sendVerificationResult := Except.ok (),
          resendVerificationOk := true, nowIso := "t5" }
        []).state.loading = false ∧
    (handleSubmit
        { isLogin := true, isForgotPassword := false, resetSuccess := false,
          error := "", loading := false, verificationPending := false }
        { isLogin := true, email := "a@x.com", password := "wrong",
          confirmPassword := "", name := "", photoPreview := none,
          photoFileName := "" }
        { signInResult := Except.error "auth/wrong-password",
          createUserResult := Except.error "unused",
          updateProfileResult := Except.ok (),
          sendVerificationResult := Except.ok (),
          resendVerificationOk := true, nowIso := "t5" }
        []).state.verificationPending = false :=
  ⟨(signIn_failure_messages _ _ _ _ "auth/wrong-password" rfl rfl).2.1
      (Or.inr (Or.inr rfl)),
   (signIn_failure_messages _ _ _ _ "auth/wrong-password" rfl rfl).2.2.2.2.1,
   (signIn_failure_messages _ _ _ _ "auth/wrong-password" rfl rfl).2.2.2.2.2.2.2.2.1⟩

/-! ### Claim C9 -/

/-- C9: for every forgot-password submission, an empty email field
causes no backend call and the error "Please enter your email
address." with the loading flag back to false; a non-empty email
issues exactly the reset-link dispatch call, and on its success the
confirmation screen flag is set. -/
theorem forgot_password_flow
    (st : AuthState) (email : String) (sendResult : Except String Unit) :
    (email = "" →
      (handleResetPassword st email sendResult).2 = [] ∧
      (handleResetPassword st email sendResult).1.error =
        "Please enter your email address." ∧
      (handleResetPassword st email sendResult).1.loading = false) ∧
    (email ≠ "" →
      (handleResetPassword st email sendResult).2 =
        [Call.sendPasswordResetEmailCall email] ∧
      (sendResult = Except.ok () →
        (handleResetPassword st email sendResult).1.resetSuccess = true ∧
        (handleResetPassword st email sendResult).1.loading = false)) := by
  constructor
  · intro he
    simp [handleResetPassword, he]
  · intro he
    cases sendResult <;> simp [handleResetPassword, he]

/-- C9 witness: the spec's scenario — an empty email field issues no
call and shows "Please enter your email address."; and a submission
with email "a@x.com" whose dispatch succeeds issues the reset call and
reaches the confirmation screen. -/
theorem forgot_password_flow_witness :
    ((handleResetPassword
        { isLogin := true, isForgotPassword := true, resetSuccess := false,
          error := "", loading := false, verificationPending := false }
        "" (Except.ok ())).2 = [] ∧
      (handleResetPassword
        { isLogin := true, isForgotPassword := true, resetSuccess := false,
          error := "", loading := false, verificationPending := false }
        "" (Except.ok ())).1.error = "Please enter your email address." ∧
      (handleResetPassword
        { isLogin := true, isForgotPassword := true, resetSuccess := false,
          error := "", loading := false, verificationPending := false }
        "" (Except.ok ())).1.loading = false) ∧
    ((handleResetPassword
        { isLogin := true, isForgotPassword := true, resetSuccess := false,
          error := "", loading := false, verificationPending := false }
        "a@x.com" (Except.ok ())).2 =
      [Call.sendPasswordResetEmailCall "a@x.com"] ∧
      (handleResetPassword
        { isLogin := true, isForgotPassword := true, resetSuccess := false,
          error := "", loading := false, verificationPending := false }
        "a@x.com" (Except.ok ())).1.resetSuccess = true) :=
  ⟨(forgot_password_flow
      { isLogin := true, isForgotPassword := true, resetSuccess := false,
        error := "", loading := false, verificationPending := false }
      "" (Except.ok ())).1 rfl,
   ⟨((forgot_password_flow
      { isLogin := true, isForgotPassword := true, resetSuccess := false,
        error := "", loading := false, verificationPending := false }
      "a@x.com" (Except.ok ())).2 (by decide)).1,
    (((forgot_password_flow
      { isLogin := true, isForgotPassword := true, resetSuccess := false,
        error := "", loading := false, verificationPending := false }
      "a@x.com" (Except.ok ())).2 (by decide)).2 rfl).1⟩⟩

/-! ### Claim C10 -/

/-- C10: the profile view's load is read-only — for every session,
outcome and store it issues at most one backend call, every call it
issues reads the document store (none writes to it), the user-facing
message is never touched; and when the profile document does not
exist, the previously displayed profile data and the editable name
field are left unchanged. -/
theorem fetchProfile_read_only
    (sessionUid : Option String) (getOk : Bool) (st : ProfileState)
    (store : Store) :
    (fetchProfile sessionUid getOk st store).2.length ≤ 1 ∧
    (∀ c ∈ (fetchProfile sessionUid getOk st store).2,
      c.isDocWrite = false) ∧
    (∀ c ∈ (fetchProfile sessionUid getOk st store).2,
      ∃ uid, c = Call.getDocCall uid) ∧
    (fetchProfile sessionUid getOk st store).1.msg = st.msg ∧
    (∀ uid, sessionUid = some uid → Store.get store uid = none →
      (fetchProfile sessionUid getOk st store).1.profileData =
        st.profileData ∧
      (fetchProfile sessionUid getOk st store).1.editName = st.editName) := by
  cases sessionUid with
  | none => simp [fetchProfile]
  | some uid =>
      cases getOk with
      | false => simp [fetchProfile, Call.isDocWrite]
      | true =>
          cases hg : Store.get store uid <;>
            simp [fetchProfile, hg, Call.isDocWrite]

/-- C10 witness: a concrete load for session "u9" against a store with
no document for it — one read, no writes, and the displayed data,
editable name and message all unchanged. -/
theorem fetchProfile_read_only_witness :
    (fetchProfile (some "u9") true
        { loading := true, updating := false,
          profileData := some [("name", "Ann")], editName := "Ann",
          msg := "m" } []).2.length ≤ 1 ∧
    (fetchProfile (some "u9") true
        { loading := true, updating := false,
          profileData := some [("name", "Ann")], editName := "Ann",
          msg := "m" } []).1.profileData = some [("name", "Ann")] ∧
    (fetchProfile (some "u9") true
        { loading := true, updating := false,
          profileData := some [("name", "Ann")], editName := "Ann",
          msg := "m" } []).1.editName = "Ann" ∧
    (fetchProfile (some "u9") true
        { loading := true, updating := false,
          profileData := some [("name", "Ann")], editName := "Ann",
          msg := "m" } []).1.msg = "m" :=
  ⟨(fetchProfile_read_only (some "u9") true
      { loading := true, updating := false,
        profileData := some [("name", "Ann")], editName := "Ann",
        msg := "m" } []).1,
   ((fetchProfile_read_only (some "u9") true
      { loading := true, updating := false,
        profileData := some [("name", "Ann")], editName := "Ann",
        msg := "m" } []).2.2.2.2 "u9" rfl rfl).1,
   ((fetchProfile_read_only (some "u9") true
      { loading := true, updating := false,
        profileData := some [("name", "Ann")], editName := "Ann",
        msg := "m" } []).2.2.2.2 "u9" rfl rfl).2,
   (fetchProfile_read_only (some "u9") true
      { loading := true, updating := false,
        profileData := some [("name", "Ann")], editName := "Ann",
        msg := "m" } []).2.2.2.1⟩
